import Mathlib

/-!
Verification of the DASH segmentation engine of liveMediaStreamer
(`src/modules/dasher/Dasher.hh` and its unit test
`unitTests/modules/dasher/DashAudioSegmenterTest.cpp`).

The repository ships only the header `Dasher.hh` (which contains the inline
bodies of `DashSegment::isEmpty`, `DashSegment::incrSeqNumber` and the small
getters) and the audio-segmenter unit test.  The member-function bodies that
live in the missing `.cpp` files (`DashSegment` setters, the segmenter's
`manageFrame` / `updateConfig` / `generateSegment` / `finishSegment`, the
manager's forced-audio-flush policy, the name builders and the time-base
conversion) are modelled from the specification, as flagged in each doc
comment below.
-/

/-- `DashSegment` (Dasher.hh, lines 247-337): a segment buffer with its data
bytes, sequence number, timestamp and duration.  `dataLength` of the C++
class is the length of `data`. -/
structure DashSegment where
  data : List Nat
  seqNumber : Nat
  timestamp : Nat
  duration : Nat
deriving DecidableEq, Repr

/-- `DashSegment::getDataLength` (Dasher.hh line 269). -/
def DashSegment.getDataLength (s : DashSegment) : Nat := s.data.length

/-- `DashSegment::isEmpty` (Dasher.hh line 329, inline in the header):
`return (dataLength == 0 && seqNumber == 0 && timestamp == 0);` -/
def DashSegment.isEmpty (s : DashSegment) : Bool :=
  s.data.length == 0 && s.seqNumber == 0 && s.timestamp == 0

/-- `DashSegment::incrSeqNumber` (Dasher.hh line 290, inline in the header):
`seqNumber++;` -/
def DashSegment.incrSeqNumber (s : DashSegment) : DashSegment :=
  { s with seqNumber := s.seqNumber + 1 }

/-- Modelled from the spec: `DashSegment::setDuration` is declared at
Dasher.hh line 312 but its body is in the missing `Dasher.cpp`; spec section 4.2
says the setters "are direct field setters with no side effects beyond the
field write". -/
def DashSegment.setDuration (s : DashSegment) (dur : Nat) : DashSegment :=
  { s with duration := dur }

/-- Modelled from the spec: `DashSegment::setTimestamp` (declared at
Dasher.hh line 301, body in the missing `Dasher.cpp`); a direct field setter
per spec section 4.2. -/
def DashSegment.setTimestamp (s : DashSegment) (ts : Nat) : DashSegment :=
  { s with timestamp := ts }

/-- Modelled from the spec: `DashSegment::setSeqNumber` (declared at
Dasher.hh line 280, body in the missing `Dasher.cpp`); a direct field setter
per spec section 4.2. -/
def DashSegment.setSeqNumber (s : DashSegment) (seqNum : Nat) : DashSegment :=
  { s with seqNumber := seqNum }

/-- Modelled from the spec: `Dasher::getSegmentName` (declared at Dasher.hh
line 94, body in the missing `Dasher.cpp`); spec section 4.4 fixes the media
segment name as `{basePath}/{baseName}_{representationId}_{timestampMs}{extension}`. -/
def Dasher.getSegmentName (basePath baseName : String) (reprId timestamp : Nat)
    (ext : String) : String :=
  basePath ++ "/" ++ baseName ++ "_" ++ toString reprId ++ "_" ++
    toString timestamp ++ ext

/-- Modelled from the spec: `Dasher::getInitSegmentName` (declared at
Dasher.hh line 104, body in the missing `Dasher.cpp`); spec section 4.4 fixes the
init segment name as `{basePath}/{baseName}_{representationId}{extension}`. -/
def Dasher.getInitSegmentName (basePath baseName : String) (reprId : Nat)
    (ext : String) : String :=
  basePath ++ "/" ++ baseName ++ "_" ++ toString reprId ++ ext

/-- Modelled from the spec: `DashSegmenter::nanosToTimeBase` (declared at
Dasher.hh line 230, body in the missing `Dasher.cpp`); spec section 4.1 requires
`ticks = round(wallClockNanoseconds * timeBase / 1e9)` with a consistent
round-half-up rule, never truncation. -/
def DashSegmenter.nanosToTimeBase (timeBase nanosValue : Nat) : Nat :=
  (nanosValue * timeBase + 500000000) / 1000000000

/-- Track kind of a frame delivered by the pipeline (`VideoFrame` /
`AudioFrame` in the headers included by Dasher.hh). -/
inductive FrameKind where
  | video
  | audio
deriving DecidableEq, Repr

/-- A frame as described by the frame input contract (spec section 6): a
presentation timestamp (microseconds, epoch-zero meaning "not yet usable"),
a sample count (audio metadata), the sample rate of the track and the
payload bytes. -/
structure Frame where
  kind : FrameKind
  presentationTimeUs : Nat
  samples : Nat
  sampleRate : Nat
  payload : List Nat
deriving DecidableEq, Repr

/-- Modelled from the spec: the state of `DashAudioSegmenter` (the concrete
subclass of `DashSegmenter`, Dasher.hh lines 151-242; its `.cpp` is missing).
Fields follow the protected members of `DashSegmenter`: the target segment
duration in time-base units, the time base, the running frame-duration
estimate, the timestamp offset (set once, on the first accepted frame), the
start tick and accumulated ticks of the in-progress segment, the in-progress
`DashSegment` buffer, the last observed (timestamp, samples) pair used by
`updateConfig`, the configuration flag gating the `Configuring -> Ready`
transition, and (as history instrumentation for the trace claims) the list
of media segments emitted so far. -/
structure DashAudioSegmenter where
  segDurInTimeBaseUnits : Nat
  timeBase : Nat
  frameDuration : Nat
  tsOffset : Option Nat
  segmentStartTs : Nat
  accumulatedTicks : Nat
  buffer : DashSegment
  lastFrame : Option (Nat × Nat)
  configured : Bool
  emitted : List DashSegment
deriving DecidableEq, Repr

/-- Modelled from the spec: a freshly constructed `DashAudioSegmenter`
(constructor at Dasher.hh line 162; spec section 3: buffers are created empty,
sequence numbers start at 0, the offset is unset). -/
def DashAudioSegmenter.initial (segDurInTimeBaseUnits timeBase : Nat) :
    DashAudioSegmenter :=
  { segDurInTimeBaseUnits := segDurInTimeBaseUnits
    timeBase := timeBase
    frameDuration := 0
    tsOffset := none
    segmentStartTs := 0
    accumulatedTicks := 0
    buffer := ⟨[], 0, 0, 0⟩
    lastFrame := none
    configured := false
    emitted := [] }

/-- Modelled from the spec: `DashAudioSegmenter::manageFrame` (pure virtual
at Dasher.hh line 172, body in the missing `DashAudioSegmenter.cpp`).  Spec
section 4.3: a frame of the wrong track kind is rejected with `accepted = false`;
an accepted frame sets the offset if unset, updates the frame-duration
estimate from the declared sample count (the unit test at
DashAudioSegmenterTest.cpp line 119 fixes it as
`samples * timeBase / sampleRate`), appends the payload to the in-progress
buffer and accumulates the frame's ticks; audio has no partial access-unit
delivery, so `isNewLogicalFrame` is always true on acceptance.  Returns
`(accepted, isNewLogicalFrame, new state)`. -/
def DashAudioSegmenter.manageFrame (s : DashAudioSegmenter) (f : Frame) :
    Bool × Bool × DashAudioSegmenter :=
  if f.kind ≠ FrameKind.audio then
    (false, false, s)
  else
    let fd := f.samples * s.timeBase / f.sampleRate
    (true, true,
      { s with
        tsOffset := match s.tsOffset with
          | none => some f.presentationTimeUs
          | some o => some o
        frameDuration := fd
        accumulatedTicks := s.accumulatedTicks + fd
        buffer := { s.buffer with data := s.buffer.data ++ f.payload }
        lastFrame := some (f.presentationTimeUs, f.samples) })

/-- Modelled from the spec: `DashAudioSegmenter::updateConfig` (pure virtual
at Dasher.hh line 177, body in the missing `DashAudioSegmenter.cpp`).  Spec
sections 4.3 and 6: configuration stays unfinalised (returns false, state stays
`Configuring`) while the frames observed so far carry an epoch-zero
presentation time or a zero sample count; a frame with a real timestamp and
a real sample count finalises it, transitioning `Configuring -> Ready`. -/
def DashAudioSegmenter.updateConfig (s : DashAudioSegmenter) :
    Bool × DashAudioSegmenter :=
  let ok := s.configured ||
    (match s.lastFrame with
      | none => false
      | some (ts, sm) => decide (ts ≠ 0) && decide (sm ≠ 0))
  (ok, { s with configured := ok })

/-- Modelled from the spec: finalisation of the in-progress buffer shared by
`generateSegment` and `finishSegment` (spec section 4.3): the emitted segment
carries the start time of the accumulation as timestamp, the accumulated
ticks as duration and the buffer's current sequence number; afterwards the
accumulation is reset for the next segment and the buffer's sequence number
is increased via `DashSegment::incrSeqNumber` (Dasher.hh line 290). -/
def DashAudioSegmenter.emitCurrent (s : DashAudioSegmenter) :
    DashAudioSegmenter :=
  let fin : DashSegment :=
    { s.buffer with timestamp := s.segmentStartTs, duration := s.accumulatedTicks }
  { s with
    buffer := DashSegment.incrSeqNumber { fin with data := [], timestamp := 0, duration := 0 }
    emitted := s.emitted ++ [fin]
    segmentStartTs := s.segmentStartTs + s.accumulatedTicks
    accumulatedTicks := 0 }

/-- Modelled from the spec: `DashAudioSegmenter::generateSegment` (pure
virtual at Dasher.hh line 186, body in the missing `DashAudioSegmenter.cpp`).
Spec section 4.3: if the accumulated duration is below the target it returns
false without mutating anything; otherwise it finalises the current buffer
and returns true. -/
def DashAudioSegmenter.generateSegment (s : DashAudioSegmenter) :
    Bool × DashAudioSegmenter :=
  if s.accumulatedTicks < s.segDurInTimeBaseUnits then (false, s)
  else (true, s.emitCurrent)

/-- Modelled from the spec: `DashAudioSegmenter::finishSegment` (exercised
by DashAudioSegmenterTest.cpp lines 185-209, body in the missing source).
Spec section 4.3: forces emission of whatever is accumulated regardless of the
target duration, with a correct timestamp/duration pair; even an
accumulation of duration 0 is emitted. -/
def DashAudioSegmenter.finishSegment (s : DashAudioSegmenter) :
    Bool × DashAudioSegmenter :=
  (true, s.emitCurrent)

/-- One step of the per-cycle drive loop of spec section 4.4, as an event on the
audio segmenter: a frame delivery, an `updateConfig` attempt, a
`generateSegment` attempt or a forced `finishSegment`. -/
inductive Ev where
  | frame (f : Frame)
  | updCfg
  | genSeg
  | finSeg
deriving DecidableEq, Repr

/-- Applies one event to the segmenter state, discarding the boolean
results. -/
def DashAudioSegmenter.step (s : DashAudioSegmenter) : Ev → DashAudioSegmenter
  | .frame f => (s.manageFrame f).2.2
  | .updCfg => (s.updateConfig).2
  | .genSeg => (s.generateSegment).2
  | .finSeg => (s.finishSegment).2

/-- Runs a whole event trace from a segmenter state. -/
def DashAudioSegmenter.run (s : DashAudioSegmenter) (es : List Ev) :
    DashAudioSegmenter :=
  es.foldl DashAudioSegmenter.step s

/-- Modelled from the spec: the cross-track state of `Dasher` relevant to
the forced-audio-flush policy (`hasVideo` and `videoStarted` flags, Dasher.hh
lines 145-146; the policy itself lives in the missing `Dasher.cpp`,
`Dasher::forceAudioSegmentsGeneration` being declared at line 118), together
with the audio track's segmenter. -/
structure DasherState where
  hasVideo : Bool
  videoStarted : Bool
  audio : DashAudioSegmenter
deriving DecidableEq, Repr

/-- Modelled from the spec: the manager-side decision of when the audio
track may emit a segment (spec section 4.4, forced audio flush policy): with a
video track present but not yet producing segments, audio segments are not
emitted and accumulation continues; otherwise the audio segmenter's own
`generateSegment` decision applies unconditionally. -/
def DasherState.generateAudioSegment (d : DasherState) : Bool × DasherState :=
  if d.hasVideo && !d.videoStarted then (false, d)
  else
    let r := d.audio.generateSegment
    (r.1, { d with audio := r.2 })

/-- `run` on a cons trace: apply the head event, then run the tail. -/
lemma DashAudioSegmenter.run_cons (s : DashAudioSegmenter) (e : Ev) (es : List Ev) :
    s.run (e :: es) = (s.step e).run es := rfl

/-- Invariant behind claim C4: the configuration has not been finalised and
the last observed frame (if any) had an epoch-zero timestamp or a zero
sample count. -/
def cfgPending (s : DashAudioSegmenter) : Prop :=
  s.configured = false ∧
    ∀ ts sm, s.lastFrame = some (ts, sm) → ts = 0 ∨ sm = 0

lemma cfgPending_updateConfig_false (s : DashAudioSegmenter)
    (h : cfgPending s) : (s.updateConfig).1 = false := by
  obtain ⟨h1, h2⟩ := h
  unfold DashAudioSegmenter.updateConfig
  cases hlf : s.lastFrame with
  | none => simp [h1, hlf]
  | some p =>
      rcases p with ⟨ts, sm⟩
      rcases h2 ts sm hlf with h0 | h0 <;> simp [h1, hlf, h0]

/-- `manageFrame` never touches the configuration flag, the emitted list or
the buffer's sequence number, and it either keeps `lastFrame` or records the
incoming frame's (timestamp, samples) pair. -/
lemma manageFrame_fields (s : DashAudioSegmenter) (f : Frame) :
    ((s.manageFrame f).2.2).configured = s.configured ∧
    ((s.manageFrame f).2.2).emitted = s.emitted ∧
    ((s.manageFrame f).2.2).buffer.seqNumber = s.buffer.seqNumber ∧
    (((s.manageFrame f).2.2).lastFrame = s.lastFrame ∨
      ((s.manageFrame f).2.2).lastFrame =
        some (f.presentationTimeUs, f.samples)) := by
  unfold DashAudioSegmenter.manageFrame
  split
  · exact ⟨rfl, rfl, rfl, Or.inl rfl⟩
  · exact ⟨rfl, rfl, rfl, Or.inr rfl⟩

/-- `generateSegment` either leaves the state untouched or finalises via
`emitCurrent`. -/
lemma generateSegment_state (s : DashAudioSegmenter) :
    (s.generateSegment).2 = s ∨ (s.generateSegment).2 = s.emitCurrent := by
  unfold DashAudioSegmenter.generateSegment
  split
  · exact Or.inl rfl
  · exact Or.inr rfl

lemma cfgPending_step (s : DashAudioSegmenter) (e : Ev)
    (h : cfgPending s)
    (he : ∀ g : Frame, e = Ev.frame g →
      g.presentationTimeUs = 0 ∨ g.samples = 0) :
    cfgPending (s.step e) := by
  obtain ⟨h1, h2⟩ := h
  cases e with
  | frame g =>
      have hg := he g rfl
      show cfgPending ((s.manageFrame g).2.2)
      obtain ⟨hc, _, _, hl⟩ := manageFrame_fields s g
      refine ⟨by rw [hc]; exact h1, ?_⟩
      intro ts sm hts
      rcases hl with hl | hl
      · rw [hl] at hts
        exact h2 ts sm hts
      · rw [hl] at hts
        have hp := Option.some.inj hts
        have hp1 : g.presentationTimeUs = ts := congrArg Prod.fst hp
        have hp2 : g.samples = sm := congrArg Prod.snd hp
        rcases hg with hg | hg
        · exact Or.inl (by rw [← hp1]; exact hg)
        · exact Or.inr (by rw [← hp2]; exact hg)
  | updCfg =>
      show cfgPending ((s.updateConfig).2)
      refine ⟨?_, fun ts sm hts => h2 ts sm hts⟩
      show (s.updateConfig).1 = false
      exact cfgPending_updateConfig_false s ⟨h1, h2⟩
  | genSeg =>
      show cfgPending ((s.generateSegment).2)
      rcases generateSegment_state s with hgen | hgen <;> rw [hgen]
      · exact ⟨h1, h2⟩
      · exact ⟨h1, h2⟩
  | finSeg =>
      show cfgPending ((s.finishSegment).2)
      exact ⟨h1, h2⟩

lemma cfgPending_run (s : DashAudioSegmenter) (es : List Ev)
    (h : cfgPending s)
    (hall : ∀ g : Frame, Ev.frame g ∈ es →
      g.presentationTimeUs = 0 ∨ g.samples = 0) :
    cfgPending (s.run es) := by
  induction es generalizing s with
  | nil => exact h
  | cons e es ih =>
      rw [DashAudioSegmenter.run_cons]
      refine ih (s.step e) (cfgPending_step s e h ?_) ?_
      · intro g hg
        exact hall g (by simp [hg])
      · intro g hg
        exact hall g (by simp [hg])

/-- Invariant behind claim C7: the in-progress buffer carries the next
sequence number and the emitted segments carry `0, 1, ..., n-1`. -/
def seqNumbersOk (s : DashAudioSegmenter) : Prop :=
  s.buffer.seqNumber = s.emitted.length ∧
    s.emitted.map DashSegment.seqNumber = List.range s.emitted.length

lemma seqNumbersOk_emitCurrent (s : DashAudioSegmenter)
    (h : seqNumbersOk s) : seqNumbersOk s.emitCurrent := by
  obtain ⟨h1, h2⟩ := h
  unfold DashAudioSegmenter.emitCurrent DashSegment.incrSeqNumber
  constructor
  · simp [h1]
  · simp [List.range_succ, h1, h2]

lemma seqNumbersOk_step (s : DashAudioSegmenter) (e : Ev)
    (h : seqNumbersOk s) : seqNumbersOk (s.step e) := by
  obtain ⟨h1, h2⟩ := h
  cases e with
  | frame g =>
      show seqNumbersOk ((s.manageFrame g).2.2)
      obtain ⟨_, he, hb, _⟩ := manageFrame_fields s g
      constructor
      · rw [hb, he]; exact h1
      · rw [he]; exact h2
  | updCfg =>
      show seqNumbersOk ((s.updateConfig).2)
      exact ⟨h1, h2⟩
  | genSeg =>
      show seqNumbersOk ((s.generateSegment).2)
      rcases generateSegment_state s with hgen | hgen <;> rw [hgen]
      · exact ⟨h1, h2⟩
      · exact seqNumbersOk_emitCurrent s ⟨h1, h2⟩
  | finSeg =>
      show seqNumbersOk ((s.finishSegment).2)
      exact seqNumbersOk_emitCurrent s ⟨h1, h2⟩

lemma seqNumbersOk_run (s : DashAudioSegmenter) (es : List Ev)
    (h : seqNumbersOk s) : seqNumbersOk (s.run es) := by
  induction es generalizing s with
  | nil => exact h
  | cons e es ih =>
      rw [DashAudioSegmenter.run_cons]
      exact ih (s.step e) (seqNumbersOk_step s e h)

/-- Claim C1: `generateSegment` returns false and leaves the whole state
(in particular the in-progress buffer) unchanged while the accumulated
ticks are below the target; once they reach or exceed the target it returns
true and the finalized segment's duration is the accumulated tick count
(and its timestamp the accumulation's start), not the target; and one
accepted frame on a below-target state overshoots the target by less than
that frame's duration in ticks. -/
theorem generateSegment_threshold (s : DashAudioSegmenter) (f : Frame) :
    (s.accumulatedTicks < s.segDurInTimeBaseUnits →
      s.generateSegment = (false, s)) ∧
    (s.segDurInTimeBaseUnits ≤ s.accumulatedTicks →
      (s.generateSegment).1 = true ∧
      (s.generateSegment).2.emitted = s.emitted ++
        [{ s.buffer with timestamp := s.segmentStartTs,
                         duration := s.accumulatedTicks }]) ∧
    (s.accumulatedTicks < s.segDurInTimeBaseUnits →
      f.kind = FrameKind.audio →
      ((s.manageFrame f).2.2).accumulatedTicks <
        s.segDurInTimeBaseUnits + ((s.manageFrame f).2.2).frameDuration) := by
  refine ⟨?_, ?_, ?_⟩
  · intro h
    simp [DashAudioSegmenter.generateSegment, h]
  · intro h
    simp [DashAudioSegmenter.generateSegment, Nat.not_lt.mpr h,
      DashAudioSegmenter.emitCurrent]
  · intro h hk
    simp [DashAudioSegmenter.manageFrame, hk]
    exact h

/-- Witness for claim C1: a fresh segmenter (0 accumulated ticks, target
2000) does not emit; a state with 2048 accumulated ticks and target 2000
emits with duration 2048. -/
theorem generateSegment_threshold_witness :
    (DashAudioSegmenter.generateSegment
      (DashAudioSegmenter.initial 2000 48000)).1 = false ∧
    (DashAudioSegmenter.generateSegment
      ⟨2000, 48000, 1024, some 5, 0, 2048, ⟨[], 0, 0, 0⟩,
        some (1, 1024), true, []⟩).1 = true := by
  constructor
  · have h := (generateSegment_threshold (DashAudioSegmenter.initial 2000 48000)
      ⟨FrameKind.audio, 1, 1024, 48000, []⟩).1 (by decide)
    rw [h]
  · exact ((generateSegment_threshold
      ⟨2000, 48000, 1024, some 5, 0, 2048, ⟨[], 0, 0, 0⟩,
        some (1, 1024), true, []⟩
      ⟨FrameKind.audio, 1, 1024, 48000, []⟩).2.1 (by decide)).1

/-- Claim C2: with a video track present (`hasVideo`) but not yet started,
the manager never lets the audio track emit a segment — the call returns
false and the whole state, audio accumulation included, is unchanged, no
matter how far the audio accumulation exceeds its target; with no video
track at all, the audio segmenter's own `generateSegment` decision applies
unconditionally. -/
theorem dasher_forced_audio_flush (d : DasherState) :
    (d.hasVideo = true → d.videoStarted = false →
      d.generateAudioSegment = (false, d)) ∧
    (d.hasVideo = false →
      d.generateAudioSegment =
        ((d.audio.generateSegment).1,
          { d with audio := (d.audio.generateSegment).2 })) := by
  constructor
  · intro h1 h2
    simp [DasherState.generateAudioSegment, h1, h2]
  · intro h1
    simp [DasherState.generateAudioSegment, h1]

/-- Witness for claim C2: a manager with video present but not started and
an audio track holding 2048 ≥ 2000 accumulated ticks still refuses to emit;
the same audio state emits under a manager with no video track. -/
theorem dasher_forced_audio_flush_witness :
    (DasherState.generateAudioSegment
      ⟨true, false, ⟨2000, 48000, 1024, some 5, 0, 2048, ⟨[], 0, 0, 0⟩,
        some (1, 1024), true, []⟩⟩).1 = false ∧
    (DasherState.generateAudioSegment
      ⟨false, false, ⟨2000, 48000, 1024, some 5, 0, 2048, ⟨[], 0, 0, 0⟩,
        some (1, 1024), true, []⟩⟩).1 = true := by
  constructor
  · have h := (dasher_forced_audio_flush
      ⟨true, false, ⟨2000, 48000, 1024, some 5, 0, 2048, ⟨[], 0, 0, 0⟩,
        some (1, 1024), true, []⟩⟩).1 rfl rfl
    rw [h]
  · have h := (dasher_forced_audio_flush
      ⟨false, false, ⟨2000, 48000, 1024, some 5, 0, 2048, ⟨[], 0, 0, 0⟩,
        some (1, 1024), true, []⟩⟩).2 rfl
    rw [h]
    decide

/-- Claim C3: on a state whose accumulation is below the target (so
`generateSegment` refuses), `finishSegment` returns true and emits the
partial accumulation as a segment whose timestamp is the accumulation's
start and whose duration is the actually accumulated ticks; the emission is
unconditional, so even a duration-0 accumulation is emitted. -/
theorem finishSegment_flushes_remainder (s : DashAudioSegmenter) :
    (s.accumulatedTicks < s.segDurInTimeBaseUnits →
      (s.generateSegment).1 = false) ∧
    (s.finishSegment).1 = true ∧
    (s.finishSegment).2.emitted = s.emitted ++
      [{ s.buffer with timestamp := s.segmentStartTs,
                       duration := s.accumulatedTicks }] := by
  refine ⟨?_, rfl, ?_⟩
  · intro h
    simp [DashAudioSegmenter.generateSegment, h]
  · simp [DashAudioSegmenter.finishSegment, DashAudioSegmenter.emitCurrent]

/-- Witness for claim C3: a fresh segmenter with target 2000 and 0
accumulated ticks refuses `generateSegment` but `finishSegment` still
emits (a duration-0 segment). -/
theorem finishSegment_flushes_remainder_witness :
    ((DashAudioSegmenter.initial 2000 48000).generateSegment).1 = false ∧
    ((DashAudioSegmenter.initial 2000 48000).finishSegment).1 = true := by
  constructor
  · exact (finishSegment_flushes_remainder
      (DashAudioSegmenter.initial 2000 48000)).1 (by decide)
  · exact (finishSegment_flushes_remainder
      (DashAudioSegmenter.initial 2000 48000)).2.1

/-- Claim C4: over any event trace from a fresh segmenter in which every
delivered frame has an epoch-zero presentation time or a zero sample count,
`updateConfig` still returns false; and right after a frame with a real
timestamp and a real sample count is managed, `updateConfig` returns
true. -/
theorem updateConfig_requires_real_frame (tgt tb : Nat) (es : List Ev)
    (s : DashAudioSegmenter) (f : Frame) :
    ((∀ g : Frame, Ev.frame g ∈ es →
        g.presentationTimeUs = 0 ∨ g.samples = 0) →
      (((DashAudioSegmenter.initial tgt tb).run es).updateConfig).1 = false) ∧
    (f.kind = FrameKind.audio → f.presentationTimeUs ≠ 0 → f.samples ≠ 0 →
      ((((s.manageFrame f).2.2)).updateConfig).1 = true) := by
  constructor
  · intro hall
    exact cfgPending_updateConfig_false _
      (cfgPending_run _ es ⟨rfl, by intro ts sm h; simp [DashAudioSegmenter.initial] at h⟩ hall)
  · intro hk hp hs
    simp [DashAudioSegmenter.manageFrame, hk, DashAudioSegmenter.updateConfig, hp, hs]

/-- Witness for claim C4: one epoch-zero frame leaves `updateConfig` false;
a frame with timestamp 1000 µs and 1024 samples makes it true. -/
theorem updateConfig_requires_real_frame_witness :
    (((DashAudioSegmenter.initial 2000 48000).run
        [Ev.frame ⟨FrameKind.audio, 0, 1024, 48000, []⟩]).updateConfig).1 = false ∧
    ((((DashAudioSegmenter.initial 2000 48000).manageFrame
        ⟨FrameKind.audio, 1000, 1024, 48000, []⟩).2.2).updateConfig).1 = true := by
  constructor
  · refine (updateConfig_requires_real_frame 2000 48000
      [Ev.frame ⟨FrameKind.audio, 0, 1024, 48000, []⟩]
      (DashAudioSegmenter.initial 2000 48000)
      ⟨FrameKind.audio, 1000, 1024, 48000, []⟩).1 ?_
    intro g hg
    rcases List.mem_singleton.mp hg with h
    injection h with h2
    subst h2
    exact Or.inl rfl
  · exact (updateConfig_requires_real_frame 2000 48000 []
      (DashAudioSegmenter.initial 2000 48000)
      ⟨FrameKind.audio, 1000, 1024, 48000, []⟩).2 rfl (by decide) (by decide)

/-- Claim C5: `manageFrame` rejects a frame of the wrong track kind with
`accepted = false` and leaves the state untouched; a frame of the matching
(audio) kind is accepted and, audio having no partial access-unit delivery,
is reported as a new logical frame. -/
theorem manageFrame_kind_contract (s : DashAudioSegmenter) (f : Frame) :
    (f.kind ≠ FrameKind.audio → s.manageFrame f = (false, false, s)) ∧
    (f.kind = FrameKind.audio →
      (s.manageFrame f).1 = true ∧ (s.manageFrame f).2.1 = true) := by
  constructor
  · intro h
    simp [DashAudioSegmenter.manageFrame, h]
  · intro h
    simp [DashAudioSegmenter.manageFrame, h]

/-- Witness for claim C5: a video frame handed to a fresh audio segmenter
is rejected; an audio frame is accepted as a new logical frame. -/
theorem manageFrame_kind_contract_witness :
    ((DashAudioSegmenter.initial 2000 48000).manageFrame
      ⟨FrameKind.video, 1000, 0, 90000, []⟩).1 = false ∧
    ((DashAudioSegmenter.initial 2000 48000).manageFrame
      ⟨FrameKind.audio, 1000, 1024, 48000, []⟩).1 = true := by
  constructor
  · have h := (manageFrame_kind_contract (DashAudioSegmenter.initial 2000 48000)
      ⟨FrameKind.video, 1000, 0, 90000, []⟩).1 (by decide)
    rw [h]
  · exact ((manageFrame_kind_contract (DashAudioSegmenter.initial 2000 48000)
      ⟨FrameKind.audio, 1000, 1024, 48000, []⟩).2 rfl).1

/-- Claim C7: over any event trace from a fresh segmenter, the sequence
numbers of the emitted media segments are exactly `0, 1, ..., n-1`: they
start at 0 and increase by exactly 1, with no gaps and no repeats. -/
theorem emitted_seqNumbers_are_range (tgt tb : Nat) (es : List Ev) :
    (((DashAudioSegmenter.initial tgt tb).run es).emitted.map
        DashSegment.seqNumber) =
      List.range ((DashAudioSegmenter.initial tgt tb).run es).emitted.length :=
  (seqNumbersOk_run (DashAudioSegmenter.initial tgt tb) es ⟨rfl, rfl⟩).2

/-- Claim C9: `DashSegment::isEmpty` returns true exactly when the data
length, the sequence number and the timestamp are all zero, i.e. only in the
pristine initial state. -/
theorem dashSegment_isEmpty_iff_pristine (s : DashSegment) :
    s.isEmpty = true ↔
      s.data.length = 0 ∧ s.seqNumber = 0 ∧ s.timestamp = 0 := by
  simp [DashSegment.isEmpty, Bool.and_eq_true, and_assoc]

/-- Claim C10: `DashSegment::isEmpty` never inspects the `duration` field:
on any buffer whose data length, sequence number and timestamp are zero,
`setDuration d` with an arbitrary `d` leaves `isEmpty` true. -/
theorem dashSegment_isEmpty_ignores_duration (s : DashSegment) (d : Nat)
    (hl : s.data.length = 0) (hs : s.seqNumber = 0) (ht : s.timestamp = 0) :
    (s.setDuration d).isEmpty = true := by
  simp [DashSegment.setDuration, DashSegment.isEmpty, hl, hs, ht]

/-- Witness for claim C10 at a concrete pristine buffer and duration 7. -/
theorem dashSegment_isEmpty_ignores_duration_witness :
    (DashSegment.setDuration ⟨[], 0, 0, 0⟩ 7).isEmpty = true :=
  dashSegment_isEmpty_ignores_duration ⟨[], 0, 0, 0⟩ 7 rfl rfl rfl

/-- Claim C6: the segment-name builders are pure functions of their
arguments with the exact formats
`{basePath}/{baseName}_{reprId}_{timestamp}{ext}` (media) and
`{basePath}/{baseName}_{reprId}{ext}` (init); two media names that differ
only in the timestamp share the whole prefix before the timestamp digits and
the extension after them, so they differ only in that substring. -/
theorem dasher_segmentName_pure_format (p b e : String) (r t t2 : Nat) :
    Dasher.getSegmentName p b r t e =
        (p ++ "/" ++ b ++ "_" ++ toString r ++ "_") ++ (toString t ++ e)
    ∧ Dasher.getSegmentName p b r t2 e =
        (p ++ "/" ++ b ++ "_" ++ toString r ++ "_") ++ (toString t2 ++ e)
    ∧ Dasher.getInitSegmentName p b r e =
        (p ++ "/" ++ b ++ "_" ++ toString r) ++ e := by
  refine ⟨?_, ?_, ?_⟩ <;>
    simp [Dasher.getSegmentName, Dasher.getInitSegmentName, String.append_assoc]

/-- Claim C8: the time-base conversion is round-to-nearest (half up): for
every nanosecond count and time base, the returned tick count `t` satisfies
`-5*10^8 < t * 10^9 - nanos * timeBase ≤ 5*10^8`, the round-half-up
characterisation — in particular it is never plain truncation. -/
theorem nanosToTimeBase_rounds_half_up (tb n : Nat) :
    -(500000000 : Int) <
        (DashSegmenter.nanosToTimeBase tb n : Int) * 1000000000 - (n * tb : Nat)
    ∧ (DashSegmenter.nanosToTimeBase tb n : Int) * 1000000000 - (n * tb : Nat) ≤
        500000000 := by
  unfold DashSegmenter.nanosToTimeBase
  omega
